import Mathlib

/-!
Alert lifecycle and notification subsystem — formal model.

Shallow embedding of the alert store (`AlertContext.js`: the reducer
`alertReducer`, `initialState`, the persistence round trip and the
auto-cleanup sweep) and of the notification surface (`AlertNotification`:
the promotion effect and `dismissNotification`).

Modelling conventions:
* JavaScript timestamps (ISO strings compared through `getTime()`) are
  `Int` milliseconds since the epoch.
* `Date.now() + Math.random()` fresh ids are an explicit `freshId : Nat`
  parameter of each add; "now" is likewise an explicit parameter.
* A JavaScript object field that may be absent (`undefined`) is an
  `Option`; object spread `{...defaults, ...payload}` keeps a payload
  field exactly when it is `some`, matching `undefined === undefined`
  being `true` in the dedup comparison.
* The action payload of `ADD_ALERT` may carry any subset of the record's
  fields (the reducer spreads it over the defaults), so `Payload` has
  every field optional.
-/

/-- One alert record as built by the `ADD_ALERT` case of `alertReducer`:
the object literal always carries `id`, `timestamp`, `read`; the remaining
fields exist only when the payload supplied them, hence `Option`. -/
structure Alert where
  id : Nat
  timestamp : Int
  read : Bool
  type : Option String
  severity : Option String
  title : Option String
  content : Option String
  riskLevel : Option String
  details : Option (List (String × String))
deriving DecidableEq, Repr

/-- The argument of `addAlert` / the `ADD_ALERT` action payload: a
JavaScript object that may carry any subset of the record fields. -/
structure Payload where
  id : Option Nat := none
  timestamp : Option Int := none
  read : Option Bool := none
  type : Option String := none
  severity : Option String := none
  title : Option String := none
  content : Option String := none
  riskLevel : Option String := none
  details : Option (List (String × String)) := none
deriving DecidableEq, Repr

/-- The reducer state: `{ alerts, unreadCount }`. `unreadCount` is an
`Int` because the reducer decrements it without a floor. -/
structure AlertState where
  alerts : List Alert
  unreadCount : Int
deriving DecidableEq, Repr

/-- Source: `newAlert = { id: Date.now() + Math.random(), timestamp: new
Date().toISOString(), read: false, ...action.payload }` — defaults first,
payload spread second, so a payload field overrides the default whenever
it is present. -/
def newAlert (payload : Payload) (now : Int) (freshId : Nat) : Alert :=
  { id := payload.id.getD freshId
    timestamp := payload.timestamp.getD now
    read := payload.read.getD false
    type := payload.type
    severity := payload.severity
    title := payload.title
    content := payload.content
    riskLevel := payload.riskLevel
    details := payload.details }

/-- The dedup predicate of the `ADD_ALERT` case: an existing record is a
duplicate of the pending `na` iff `alert.content === newAlert.content &&
alert.type === newAlert.type && new Date(alert.timestamp).getTime() >
Date.now() - 60000`. -/
def duplicateCheck (na : Alert) (now : Int) (alert : Alert) : Bool :=
  alert.content == na.content && alert.type == na.type &&
    decide (now - 60000 < alert.timestamp)

/-- The `ADD_ALERT` case: if `state.alerts.find(duplicate check)` hits,
return the state unchanged; otherwise prepend the new record, cap with
`slice(0, 100)`, and bump the counter unconditionally with
`unreadCount: state.unreadCount + 1`. -/
def addAlert (payload : Payload) (now : Int) (freshId : Nat) (s : AlertState) : AlertState :=
  match s.alerts.find? (duplicateCheck (newAlert payload now freshId) now) with
  | some _ => s
  | none =>
    { alerts := (newAlert payload now freshId :: s.alerts).take 100
      unreadCount := s.unreadCount + 1 }

/-- The `REMOVE_ALERT` case: filter out the id; decrement `unreadCount`
iff the removed record existed and was unread. -/
def removeAlert (alertId : Nat) (s : AlertState) : AlertState :=
  { alerts := s.alerts.filter fun alert => alert.id != alertId
    unreadCount :=
      match s.alerts.find? fun alert => alert.id == alertId with
      | some a => if !a.read then s.unreadCount - 1 else s.unreadCount
      | none => s.unreadCount }

/-- The `CLEAR_ALERTS` case: empty list, counter reset to 0. -/
def clearAlerts (_ : AlertState) : AlertState :=
  { alerts := [], unreadCount := 0 }

/-- The `MARK_AS_READ` case: map `read := true` onto every record with
the id; decrement `unreadCount` iff some record with the id was unread. -/
def markAsRead (alertId : Nat) (s : AlertState) : AlertState :=
  { alerts := s.alerts.map fun alert =>
      if alert.id == alertId then { alert with read := true } else alert
    unreadCount :=
      match s.alerts.find? fun alert => alert.id == alertId && !alert.read with
      | some _ => s.unreadCount - 1
      | none => s.unreadCount }

/-- Source `initialState`: `alerts` parsed from `localStorage` (absent or
unparsable means `[]`), `unreadCount: 0` — the counter is NOT recomputed
from the loaded records. -/
def initialState (stored : Option (List Alert)) : AlertState :=
  { alerts := stored.getD [], unreadCount := 0 }

/-- The provider's persistence effect: `localStorage.setItem
('phishingAlerts', JSON.stringify(state.alerts))` — only the record list
is persisted (JSON round-tripping of the list is assumed faithful). -/
def persist (s : AlertState) : List Alert := s.alerts

/-- Re-dispatching a stored record as an `ADD_ALERT` payload (the
auto-cleanup path): every field of the record is present, so the spread
overrides all the defaults. -/
def payloadOfAlert (a : Alert) : Payload :=
  { id := some a.id
    timestamp := some a.timestamp
    read := some a.read
    type := a.type
    severity := a.severity
    title := a.title
    content := a.content
    riskLevel := a.riskLevel
    details := a.details }

/-- The auto-cleanup effect: keep alerts with `timestamp` newer than 30
days ago (modelled as `now - 30 * 86400000` ms) and, if anything was
dropped, dispatch `CLEAR_ALERTS` followed by one `ADD_ALERT` per survivor
in order. The id/timestamp/read defaults of those re-adds are irrelevant
because the full-record payload overrides them, so the fresh-id argument
passed to `addAlert` here is immaterial (we pass 0). -/
def cleanup (now : Int) (s : AlertState) : AlertState :=
  let thirtyDaysAgo := now - 30 * 86400000
  let recentAlerts := s.alerts.filter fun alert => decide (thirtyDaysAgo < alert.timestamp)
  if recentAlerts.length < s.alerts.length then
    recentAlerts.foldl (fun st alert => addAlert (payloadOfAlert alert) now 0 st)
      (clearAlerts s)
  else s

/-- One mutation of the store, with the ambient inputs (current time,
fresh id) made explicit. -/
inductive StoreAction where
  | add (payload : Payload) (now : Int) (freshId : Nat)
  | remove (alertId : Nat)
  | clear
  | markRead (alertId : Nat)
  | sweep (now : Int)
deriving DecidableEq, Repr

/-- Dispatch one action through the reducer (or the cleanup effect). -/
def applyAction (s : AlertState) : StoreAction → AlertState
  | .add p now fid => addAlert p now fid s
  | .remove i => removeAlert i s
  | .clear => clearAlerts s
  | .markRead i => markAsRead i s
  | .sweep now => cleanup now s

/-- Run a sequence of store actions from the empty initial state
(no persisted data). -/
def runActions (acts : List StoreAction) : AlertState :=
  acts.foldl applyAction (initialState none)

/-- Number of stored records whose `read` field is false. -/
def countUnread (alerts : List Alert) : Nat :=
  alerts.countP fun alert => !alert.read

/-! ## NotificationPresenter (`AlertNotification` component) -/

/-- Presenter state: the `visibleAlerts` list, plus bookkeeping for the
`setTimeout` auto-dismiss callbacks scheduled by the promotion effect
(fire time, alert id) — the source never cancels them — and the ordered
log of `markAsRead(id)` calls issued to the store. -/
structure PresenterState where
  visibleAlerts : List Alert
  pendingTimers : List (Int × Nat)
  markReadCalls : List Nat
deriving DecidableEq, Repr

/-- The notification filter of the promotion effect: `!a.read &&
!visibleAlerts.find(v => v.id === a.id) && (a.severity === 'critical' ||
a.severity === 'high' || a.type === 'phishing_detected')`. -/
def promotionCheck (visibleAlerts : List Alert) (alert : Alert) : Bool :=
  !alert.read &&
  (visibleAlerts.find? fun v => v.id == alert.id).isNone &&
  (alert.severity == some "critical" || alert.severity == some "high" ||
    alert.type == some "phishing_detected")

/-- The promotion effect: filter the store's list with the notification
filter; when the result is nonempty, append it to `visibleAlerts` and, if
`autoDismiss`, schedule one auto-dismiss timeout per promoted record at
`now + dismissTimeout`. -/
def observeAlerts (alerts : List Alert) (now : Int) (autoDismiss : Bool)
    (dismissTimeout : Int) (ps : PresenterState) : PresenterState :=
  let newAlerts := alerts.filter (promotionCheck ps.visibleAlerts)
  if newAlerts.length > 0 then
    { ps with
      visibleAlerts := ps.visibleAlerts ++ newAlerts
      pendingTimers :=
        if autoDismiss then
          ps.pendingTimers ++ newAlerts.map fun alert => (now + dismissTimeout, alert.id)
        else ps.pendingTimers }
  else ps

/-- Source `dismissNotification(alertId)`: remove the id from
`visibleAlerts` and call `markAsRead(alertId)` on the store (logged). A
timer elapsing runs exactly this function for its captured id. -/
def dismissNotification (alertId : Nat) (ps : PresenterState) : PresenterState :=
  { ps with
    visibleAlerts := ps.visibleAlerts.filter fun alert => alert.id != alertId
    markReadCalls := ps.markReadCalls ++ [alertId] }

/-- One presenter event: an observation cycle of the store's alert list,
or a dismissal (explicit user dismissal, or an auto-dismiss timeout
firing for the id it captured). -/
inductive PEvent where
  | observe (alerts : List Alert) (now : Int) (autoDismiss : Bool) (dismissTimeout : Int)
  | dismiss (alertId : Nat)
deriving DecidableEq, Repr

/-- Step the presenter by one event. -/
def pStep (ps : PresenterState) : PEvent → PresenterState
  | .observe alerts now ad dt => observeAlerts alerts now ad dt ps
  | .dismiss i => dismissNotification i ps

/-- The presenter's initial state (`useState([])` for every piece). -/
def initialPresenter : PresenterState :=
  { visibleAlerts := [], pendingTimers := [], markReadCalls := [] }

/-- Run a sequence of presenter events from the initial state. -/
def runPresenter (events : List PEvent) : PresenterState :=
  events.foldl pStep initialPresenter

/-! ## Concrete scenario fixtures -/

/-- A well-formed candidate (kind, severity, title, content supplied;
id, timestamp and read left to the store defaults), with content made
distinct per index. -/
def batchPayload (i : Nat) : Payload :=
  { type := some "security_warning"
    severity := some "medium"
    title := some "batch"
    content := some (String.mk [Char.ofNat (65 + i)]) }

/-- Add `n` distinct non-duplicate unread candidates in sequence to an
empty store, 70 seconds apart (so the dedup window never applies), with
fresh ids `0, 1, ...`. -/
def addBatch (n : Nat) : AlertState :=
  (List.range n).foldl
    (fun s i => addAlert (batchPayload i) ((i : Int) * 70000) i s)
    (initialState none)

/-- A reference time for the retention-sweep scenario (any instant later
than 31 days after the epoch works). -/
def sweepT : Int := 100000000000

/-- Unread survivor of the sweep scenario: 70 seconds old. -/
def sweepAlertA : Alert :=
  { id := 1, timestamp := sweepT - 70000, read := false
    type := some "security_warning", severity := some "medium"
    title := some "A", content := some "a", riskLevel := none, details := none }

/-- Read survivor of the sweep scenario: 80 seconds old. -/
def sweepAlertB : Alert :=
  { id := 2, timestamp := sweepT - 80000, read := true
    type := some "security_warning", severity := some "medium"
    title := some "B", content := some "b", riskLevel := none, details := none }

/-- Expired record of the sweep scenario: just over 30 days old
(30 days = 2592000000 ms). -/
def sweepAlertOld : Alert :=
  { id := 3, timestamp := sweepT - 2600000000, read := true
    type := some "security_warning", severity := some "medium"
    title := some "C", content := some "c", riskLevel := none, details := none }

/-- Store state fed to the retention sweep: newest-first, counter equal
to the one unread record, so the unread invariant holds beforehand. -/
def sweepState : AlertState :=
  { alerts := [sweepAlertA, sweepAlertB, sweepAlertOld], unreadCount := 1 }

/-- A store state holding a single unread alert, used for the
persistence round trip. -/
def roundTripState : AlertState :=
  { alerts := [sweepAlertA], unreadCount := 1 }

/-- A store state already at the 100-record cap (distinct ids and
contents, all unread), for exercising insertion at the cap. -/
def cap100State : AlertState :=
  { alerts := (List.range 100).map fun i =>
      { id := i, timestamp := (i : Int) * 70000, read := false
        type := some "security_warning", severity := some "medium"
        title := some "batch", content := some (String.mk [Char.ofNat (65 + i)])
        riskLevel := none, details := none }
    unreadCount := 100 }

/-- A candidate that supplies none of the required fields (no kind, no
title, no content): the malformed candidate of the validation claim. -/
def emptyPayload : Payload := {}

/-- A stored record as the promotion scenarios see it: an unread
`system_notification` with severity `info` (below the promotion
threshold). -/
def infoAlert : Alert :=
  { id := 11, timestamp := 0, read := false
    type := some "system_notification", severity := some "info"
    title := some "sys", content := some "hello", riskLevel := none, details := none }

/-- A stored record for the auto-dismiss scenario: an unread
`phishing_detected` record with severity `critical`. -/
def phishAlert : Alert :=
  { id := 12, timestamp := 0, read := false
    type := some "phishing_detected", severity := some "critical"
    title := some "phish", content := some "bad", riskLevel := some "critical"
    details := none }

/-- A candidate that overrides every store-assigned default: its own id,
timestamp and an already-read flag. -/
def overridePayload : Payload :=
  { id := some 1, timestamp := some 500, read := some true
    type := some "security_warning", severity := some "low"
    title := some "pre", content := some "reused", riskLevel := none, details := none }

/-- A candidate with the same content and kind as `infoAlert`, for
exercising the dedup window. -/
def dupPayload : Payload :=
  { type := some "system_notification", severity := some "info"
    title := some "sys", content := some "hello" }

/-- A store already holding `infoAlert` (with a consistent counter). -/
def dupState : AlertState :=
  { alerts := [infoAlert], unreadCount := 1 }

/-! ## Helper lemmas about the reducer -/

theorem addAlert_of_find_none {p : Payload} {now : Int} {fid : Nat} {s : AlertState}
    (h : s.alerts.find? (duplicateCheck (newAlert p now fid) now) = none) :
    addAlert p now fid s =
      { alerts := (newAlert p now fid :: s.alerts).take 100
        unreadCount := s.unreadCount + 1 } := by
  unfold addAlert
  rw [h]

theorem addAlert_of_find_some {p : Payload} {now : Int} {fid : Nat} {s : AlertState}
    {a : Alert} (h : s.alerts.find? (duplicateCheck (newAlert p now fid) now) = some a) :
    addAlert p now fid s = s := by
  unfold addAlert
  rw [h]

theorem duplicateCheck_iff (na : Alert) (now : Int) (a : Alert) :
    duplicateCheck na now a = true ↔
      a.content = na.content ∧ a.type = na.type ∧ now - 60000 < a.timestamp := by
  simp [duplicateCheck, and_assoc]

/-- The add is a no-op exactly when the dedup predicate hits: otherwise
the counter strictly grows, so the state differs. -/
theorem addAlert_eq_self_iff (p : Payload) (now : Int) (fid : Nat) (s : AlertState) :
    addAlert p now fid s = s ↔
      ∃ a ∈ s.alerts, a.content = p.content ∧ a.type = p.type ∧
        now - 60000 < a.timestamp := by
  have hest : ∀ a : Alert,
      (a.content = p.content ∧ a.type = p.type ∧ now - 60000 < a.timestamp) ↔
      duplicateCheck (newAlert p now fid) now a = true := by
    intro a
    rw [duplicateCheck_iff]
    rfl
  constructor
  · intro h
    by_contra hnd
    push_neg at hnd
    have hfind : s.alerts.find? (duplicateCheck (newAlert p now fid) now) = none := by
      rw [List.find?_eq_none]
      intro a ha hpred
      rcases (hest a).mpr hpred with ⟨hc, ht, hts⟩
      exact absurd hts (not_lt.mpr (hnd a ha hc ht))
    rw [addAlert_of_find_none hfind] at h
    have := congrArg AlertState.unreadCount h
    simp at this
  · rintro ⟨a, ha, hc, ht, hts⟩
    have hsome : (s.alerts.find? (duplicateCheck (newAlert p now fid) now)).isSome := by
      rw [List.find?_isSome]
      exact ⟨a, ha, (hest a).mp ⟨hc, ht, hts⟩⟩
    obtain ⟨b, hb⟩ := Option.isSome_iff_exists.mp hsome
    exact addAlert_of_find_some hb

theorem addAlert_length_le (p : Payload) (now : Int) (fid : Nat) (s : AlertState)
    (h : s.alerts.length ≤ 100) : (addAlert p now fid s).alerts.length ≤ 100 := by
  unfold addAlert
  cases hf : s.alerts.find? (duplicateCheck (newAlert p now fid) now) with
  | some a => simpa using h
  | none =>
    simp only [List.length_take]
    exact min_le_left _ _

theorem foldl_addAlert_length_le (l : List Alert) (now : Int) (st : AlertState)
    (h : st.alerts.length ≤ 100) :
    (l.foldl (fun st alert => addAlert (payloadOfAlert alert) now 0 st) st).alerts.length
      ≤ 100 := by
  induction l generalizing st with
  | nil => exact h
  | cons a l ih => exact ih _ (addAlert_length_le _ _ _ _ h)

theorem applyAction_length_le (s : AlertState) (act : StoreAction)
    (h : s.alerts.length ≤ 100) : (applyAction s act).alerts.length ≤ 100 := by
  cases act with
  | add p now fid => exact addAlert_length_le p now fid s h
  | remove i =>
    simpa [applyAction, removeAlert] using le_trans (List.length_filter_le _ _) h
  | clear => simp [applyAction, clearAlerts]
  | markRead i => simpa [applyAction, markAsRead] using h
  | sweep now =>
    simp only [applyAction, cleanup]
    split
    · exact foldl_addAlert_length_le _ _ _ (by simp [clearAlerts])
    · exact h

/-! ## Claim theorems -/

/-- C2: for every sequence of store operations run from the empty initial
state, the alert list never holds more than 100 records; an add performed
when the list already holds exactly 100 records leaves it at exactly 100;
a non-duplicate add below the cap prepends the new record (newest first)
and keeps every existing record; and a non-duplicate add at the cap
prepends the new record, keeps the 99 newest existing records in order,
and drops exactly the oldest one (the last of the newest-first list). -/
theorem cap_never_exceeded :
    (∀ acts : List StoreAction, (runActions acts).alerts.length ≤ 100) ∧
    (∀ (p : Payload) (now : Int) (fid : Nat) (s : AlertState),
      s.alerts.length = 100 → (addAlert p now fid s).alerts.length = 100) ∧
    (∀ (p : Payload) (now : Int) (fid : Nat) (s : AlertState),
      s.alerts.length ≤ 99 →
      (¬ ∃ a ∈ s.alerts, a.content = p.content ∧ a.type = p.type ∧
          now - 60000 < a.timestamp) →
      (addAlert p now fid s).alerts = newAlert p now fid :: s.alerts) ∧
    (∀ (p : Payload) (now : Int) (fid : Nat) (s : AlertState),
      s.alerts.length = 100 →
      (¬ ∃ a ∈ s.alerts, a.content = p.content ∧ a.type = p.type ∧
          now - 60000 < a.timestamp) →
      (addAlert p now fid s).alerts = newAlert p now fid :: s.alerts.dropLast) := by
  have hfind : ∀ (p : Payload) (now : Int) (fid : Nat) (s : AlertState),
      (¬ ∃ a ∈ s.alerts, a.content = p.content ∧ a.type = p.type ∧
          now - 60000 < a.timestamp) →
      s.alerts.find? (duplicateCheck (newAlert p now fid) now) = none := by
    intro p now fid s hnd
    rw [List.find?_eq_none]
    intro a ha hpred
    rcases (duplicateCheck_iff _ _ _).mp hpred with ⟨hc, ht, hts⟩
    exact hnd ⟨a, ha, hc, ht, hts⟩
  refine ⟨?_, ?_, ?_, ?_⟩
  · intro acts
    have key : ∀ (l : List StoreAction) (s : AlertState), s.alerts.length ≤ 100 →
        (l.foldl applyAction s).alerts.length ≤ 100 := by
      intro l
      induction l with
      | nil => intro s h; exact h
      | cons act l ih => intro s h; exact ih _ (applyAction_length_le s act h)
    exact key acts _ (by simp [initialState])
  · intro p now fid s h
    unfold addAlert
    cases hf : s.alerts.find? (duplicateCheck (newAlert p now fid) now) with
    | some a => simpa using h
    | none =>
      simp only [List.length_take, List.length_cons, h]
      omega
  · intro p now fid s h99 hnd
    rw [addAlert_of_find_none (hfind p now fid s hnd)]
    simp only
    rw [List.take_of_length_le]
    simp only [List.length_cons]
    omega
  · intro p now fid s h100 hnd
    rw [addAlert_of_find_none (hfind p now fid s hnd)]
    simp only
    rw [show (100 : Nat) = 99 + 1 from rfl, List.take_succ_cons]
    rw [List.dropLast_eq_take, h100]

/-- Witness for C2 at concrete inputs: a two-action run stays within the
cap, and a non-duplicate add on a store already holding exactly 100
records stores the new record as newest and drops exactly the oldest. -/
theorem cap_never_exceeded_witness :
    (runActions [StoreAction.add (batchPayload 0) 0 0, StoreAction.clear]).alerts.length ≤ 100 ∧
    (addAlert (batchPayload 100) 7000000 100 cap100State).alerts.length = 100 ∧
    (addAlert (batchPayload 100) 7000000 100 cap100State).alerts =
      newAlert (batchPayload 100) 7000000 100 :: cap100State.alerts.dropLast :=
  ⟨cap_never_exceeded.1 _,
   cap_never_exceeded.2.1 (batchPayload 100) 7000000 100 cap100State (by simp [cap100State]),
   cap_never_exceeded.2.2.2 (batchPayload 100) 7000000 100 cap100State
     (by simp [cap100State]) (by decide)⟩

/-- C1 (code bug evidence): adding 101 distinct non-duplicate unread
records from the empty store caps the list at 100 and leaves exactly 100
unread stored records, yet `unreadCount` is 101 — the reducer increments
the counter unconditionally and never removes the evicted unread
record's contribution. -/
theorem cap_eviction_unread_overcount :
    (addBatch 101).alerts.length = 100 ∧
    countUnread (addBatch 101).alerts = 100 ∧
    (addBatch 101).unreadCount = 101 := by
  set_option maxRecDepth 10000 in decide

/-- C4 (code bug evidence): sweeping a store that holds two in-window
records (unread `sweepAlertA` newest, read `sweepAlertB` next) and one
expired record does remove the expired record and keeps the survivors'
fields intact, but the clear-and-re-add path reverses the survivors'
newest-first order and sets `unreadCount` to the number of survivors (2)
instead of the number of unread survivors (1). -/
theorem sweep_reverses_and_overcounts :
    (cleanup sweepT sweepState).alerts = [sweepAlertB, sweepAlertA] ∧
    (cleanup sweepT sweepState).alerts ≠ [sweepAlertA, sweepAlertB] ∧
    (cleanup sweepT sweepState).unreadCount = 2 ∧
    countUnread (cleanup sweepT sweepState).alerts = 1 := by
  decide

/-- C5 counterexample: persisting a store that holds one unread record
and reloading it reproduces the alerts verbatim but initialises
`unreadCount` to 0, not to the recount 1. -/
theorem reload_zeroes_counter_counterexample :
    (initialState (some (persist roundTripState))).alerts = roundTripState.alerts ∧
    countUnread (initialState (some (persist roundTripState))).alerts = 1 ∧
    (initialState (some (persist roundTripState))).unreadCount = 0 ∧
    (initialState (some (persist roundTripState))).unreadCount ≠
      (countUnread (initialState (some (persist roundTripState))).alerts : Int) := by
  decide

/-- C5 amended: a persist-then-reload round trip reproduces the alerts
sequence identically, but `unreadCount` is reset to 0 rather than
recomputed from the loaded sequence, so it equals the recount only when
every loaded record is read. -/
theorem reload_alerts_roundtrip :
    ∀ s : AlertState, (initialState (some (persist s))).alerts = s.alerts ∧
      (initialState (some (persist s))).unreadCount = 0 :=
  fun _ => ⟨rfl, rfl⟩

/-- C9 counterexample: adding a candidate that lacks every required
field (no kind, no title, no content) to the empty store is not
rejected — a record is stored and the state changes. -/
theorem add_malformed_stored_counterexample :
    (addAlert emptyPayload 0 0 (initialState none)).alerts.length = 1 ∧
    addAlert emptyPayload 0 0 (initialState none) ≠ initialState none := by
  decide

/-- C9 amended: `add` performs no validation: a candidate missing the
required fields (kind, title, content) is stored anyway whenever the
dedup check misses — the list grows by one (up to the cap) and the state
always changes, and no rejection is reported. -/
theorem add_no_validation :
    ∀ (p : Payload) (now : Int) (fid : Nat) (s : AlertState),
      p.type = none → p.title = none → p.content = none →
      (¬ ∃ a ∈ s.alerts, a.content = p.content ∧ a.type = p.type ∧
          now - 60000 < a.timestamp) →
      (addAlert p now fid s).alerts.length = min 100 (s.alerts.length + 1) ∧
      addAlert p now fid s ≠ s := by
  intro p now fid s _ _ _ hnd
  have hfind : s.alerts.find? (duplicateCheck (newAlert p now fid) now) = none := by
    rw [List.find?_eq_none]
    intro a ha hpred
    rcases (duplicateCheck_iff _ _ _).mp hpred with ⟨hc, ht, hts⟩
    exact hnd ⟨a, ha, hc, ht, hts⟩
  constructor
  · rw [addAlert_of_find_none hfind]
    simp only [List.length_take, List.length_cons]
  · intro h
    exact hnd ((addAlert_eq_self_iff p now fid s).mp h)

/-- Witness for C9's amended theorem at a concrete input: the field-free
candidate really is stored in the empty store. -/
theorem add_no_validation_witness :
    (addAlert emptyPayload 5 3 (initialState none)).alerts.length =
      min 100 ((initialState none).alerts.length + 1) ∧
    addAlert emptyPayload 5 3 (initialState none) ≠ initialState none :=
  add_no_validation emptyPayload 5 3 (initialState none) rfl rfl rfl (by decide)

/-- C3: an add is dropped (the state, counter included, is completely
unchanged) iff some existing record has identical content and kind and a
`createdAt` within 60 seconds of now (given that no stored timestamp lies
in the future); consequently two adds of the same candidate yield one
stored record when less than 60 seconds apart and two when more than 60
seconds apart. -/
theorem duplicate_add_dropped_iff :
    (∀ (p : Payload) (now : Int) (fid : Nat) (s : AlertState),
      (∀ a ∈ s.alerts, a.timestamp ≤ now) →
      (addAlert p now fid s = s ↔
        ∃ a ∈ s.alerts, a.content = p.content ∧ a.type = p.type ∧
          |now - a.timestamp| < 60000)) ∧
    (∀ (p : Payload) (t1 t2 : Int) (fid1 fid2 : Nat),
      p.timestamp = none →
      ((t2 - t1 < 60000 →
        (addAlert p t2 fid2 (addAlert p t1 fid1 (initialState none))).alerts.length = 1) ∧
       (60000 < t2 - t1 →
        (addAlert p t2 fid2 (addAlert p t1 fid1 (initialState none))).alerts.length = 2))) := by
  constructor
  · intro p now fid s htime
    rw [addAlert_eq_self_iff]
    constructor
    · rintro ⟨a, ha, hc, ht, hts⟩
      refine ⟨a, ha, hc, ht, ?_⟩
      have := htime a ha
      rw [abs_of_nonneg (by omega)]
      omega
    · rintro ⟨a, ha, hc, ht, hts⟩
      refine ⟨a, ha, hc, ht, ?_⟩
      have := htime a ha
      rw [abs_of_nonneg (by omega)] at hts
      omega
  · intro p t1 t2 fid1 fid2 hpts
    have h1 : addAlert p t1 fid1 (initialState none) =
        { alerts := [newAlert p t1 fid1], unreadCount := 1 } := by
      rw [addAlert_of_find_none (by simp [initialState])]
      simp [initialState]
    constructor
    · intro hlt
      have hpred : duplicateCheck (newAlert p t2 fid2) t2 (newAlert p t1 fid1) = true := by
        simp [duplicateCheck, newAlert, hpts]
        omega
      have hdup : (addAlert p t1 fid1 (initialState none)).alerts.find?
          (duplicateCheck (newAlert p t2 fid2) t2) = some (newAlert p t1 fid1) := by
        rw [h1]
        exact List.find?_cons_of_pos _ hpred
      rw [addAlert_of_find_some hdup, h1]
      rfl
    · intro hgt
      have hpred : duplicateCheck (newAlert p t2 fid2) t2 (newAlert p t1 fid1) = false := by
        simp [duplicateCheck, newAlert, hpts]
        omega
      have hnone : (addAlert p t1 fid1 (initialState none)).alerts.find?
          (duplicateCheck (newAlert p t2 fid2) t2) = none := by
        rw [h1]
        simp [List.find?, hpred]
      rw [addAlert_of_find_none hnone, h1]
      simp

/-- Witness for C3 at concrete inputs: an add whose content and kind
match a record stored 30 seconds ago is dropped, and the same candidate
added at times 0 and 70000 (more than 60 seconds apart) is stored
twice. -/
theorem duplicate_add_dropped_iff_witness :
    addAlert dupPayload 30000 99 dupState = dupState ∧
    (addAlert (batchPayload 0) 70000 2
      (addAlert (batchPayload 0) 0 1 (initialState none))).alerts.length = 2 :=
  ⟨((duplicate_add_dropped_iff.1 dupPayload 30000 99 dupState (by decide)).mpr (by decide)),
   (duplicate_add_dropped_iff.2 (batchPayload 0) 0 70000 1 2 rfl).2 (by norm_num)⟩

/-! ## Helper lemmas about markAsRead -/

theorem map_eq_self_of {α : Type} (l : List α) (f : α → α) (h : ∀ a ∈ l, f a = a) :
    l.map f = l := by
  induction l with
  | nil => rfl
  | cons a l ih =>
    simp only [List.map_cons, h a (by simp)]
    rw [ih fun b hb => h b (by simp [hb])]

theorem alert_set_read_self (a : Alert) (h : a.read = true) :
    { a with read := true } = a := by
  cases a
  simp_all

theorem markAsRead_eq_self {i : Nat} {s : AlertState}
    (h : ∀ a ∈ s.alerts, a.id = i → a.read = true) : markAsRead i s = s := by
  have hfind : (s.alerts.find? fun alert => alert.id == i && !alert.read) = none := by
    rw [List.find?_eq_none]
    intro a ha
    by_cases hid : a.id = i
    · simp [hid, h a ha hid]
    · simp [hid]
  have hmap :
      (s.alerts.map fun alert =>
        if alert.id == i then { alert with read := true } else alert) = s.alerts := by
    apply map_eq_self_of
    intro a ha
    by_cases hid : a.id = i
    · rw [if_pos (show (a.id == i) = true by simp [hid])]
      exact alert_set_read_self a (h a ha hid)
    · simp [hid]
  unfold markAsRead
  rw [hfind, hmap]

theorem markAsRead_idem (i : Nat) (s : AlertState) :
    markAsRead i (markAsRead i s) = markAsRead i s := by
  apply markAsRead_eq_self
  intro x hx hxid
  simp only [markAsRead, List.mem_map] at hx
  obtain ⟨b, hb, rfl⟩ := hx
  by_cases hid : b.id = i
  · simp [hid]
  · have hfb : (if b.id == i then { b with read := true } else b) = b := by
      rw [if_neg]
      simp [hid]
    rw [hfb] at hxid
    exact absurd hxid hid

theorem markAsRead_unreadCount_cases (i : Nat) (s : AlertState) :
    (markAsRead i s).unreadCount = s.unreadCount - 1 ∨
    (markAsRead i s).unreadCount = s.unreadCount := by
  rcases hf : s.alerts.find? fun alert => alert.id == i && !alert.read with _ | a
  · right
    unfold markAsRead
    rw [hf]
  · left
    unfold markAsRead
    rw [hf]

/-- C6: marking a present unread id puts the read-marked record in the
store and keeps every record with another id, decrementing the counter by
exactly one; marking an id whose records are all read (in particular an
absent id) is a complete no-op; and a second call for the same id changes
nothing more, so two calls change `unreadCount` by at most one in
total. -/
theorem markRead_false_to_true_once :
    (∀ (i : Nat) (s : AlertState),
      (∀ a ∈ s.alerts, a.id = i → a.read = true) → markAsRead i s = s) ∧
    (∀ (i : Nat) (s : AlertState) (a : Alert),
      a ∈ s.alerts → a.id = i → a.read = false →
      ({ a with read := true } ∈ (markAsRead i s).alerts ∧
       (∀ b ∈ s.alerts, b.id ≠ i → b ∈ (markAsRead i s).alerts) ∧
       (markAsRead i s).unreadCount = s.unreadCount - 1)) ∧
    (∀ (i : Nat) (s : AlertState), markAsRead i (markAsRead i s) = markAsRead i s) ∧
    (∀ (i : Nat) (s : AlertState),
      s.unreadCount - 1 ≤ (markAsRead i (markAsRead i s)).unreadCount ∧
      (markAsRead i (markAsRead i s)).unreadCount ≤ s.unreadCount) := by
  refine ⟨fun i s h => markAsRead_eq_self h, ?_, markAsRead_idem, ?_⟩
  · intro i s a ha hid hrd
    refine ⟨?_, ?_, ?_⟩
    · simp only [markAsRead, List.mem_map]
      exact ⟨a, ha, by simp [hid]⟩
    · intro b hb hbid
      simp only [markAsRead, List.mem_map]
      exact ⟨b, hb, by simp [hbid]⟩
    · have hsome : (s.alerts.find? fun alert => alert.id == i && !alert.read).isSome := by
        rw [List.find?_isSome]
        exact ⟨a, ha, by simp [hid, hrd]⟩
      obtain ⟨b, hb⟩ := Option.isSome_iff_exists.mp hsome
      unfold markAsRead
      rw [hb]
  · intro i s
    rw [markAsRead_idem]
    rcases markAsRead_unreadCount_cases i s with h | h <;> rw [h] <;> omega

/-- Witness for C6 at a concrete input: marking the unread record of a
one-record store stores its read version and drops the counter to 0. -/
theorem markRead_false_to_true_once_witness :
    { infoAlert with read := true } ∈ (markAsRead 11 dupState).alerts ∧
    (∀ b ∈ dupState.alerts, b.id ≠ 11 → b ∈ (markAsRead 11 dupState).alerts) ∧
    (markAsRead 11 dupState).unreadCount = dupState.unreadCount - 1 :=
  markRead_false_to_true_once.2.1 11 dupState infoAlert (by decide) rfl rfl

/-! ## Helper lemmas about the presenter -/

theorem promotionCheck_iff (vis : List Alert) (a : Alert) :
    promotionCheck vis a = true ↔
      a.read = false ∧ (∀ v ∈ vis, v.id ≠ a.id) ∧
      (a.severity = some "critical" ∨ a.severity = some "high" ∨
        a.type = some "phishing_detected") := by
  simp [promotionCheck, Option.isNone_iff_eq_none, List.find?_eq_none, and_assoc,
    Bool.not_eq_true']
  tauto

theorem observe_visibleAlerts (alerts : List Alert) (now : Int) (ad : Bool) (dt : Int)
    (ps : PresenterState) :
    (observeAlerts alerts now ad dt ps).visibleAlerts =
      ps.visibleAlerts ++ alerts.filter (promotionCheck ps.visibleAlerts) := by
  simp only [observeAlerts]
  split
  · rfl
  · next h =>
    have hnil : alerts.filter (promotionCheck ps.visibleAlerts) = [] :=
      List.length_eq_zero.mp (by omega)
    simp [hnil]

theorem observe_pendingTimers (alerts : List Alert) (now : Int) (ad : Bool) (dt : Int)
    (ps : PresenterState) :
    (observeAlerts alerts now ad dt ps).pendingTimers =
      ps.pendingTimers ++
        (if ad then (alerts.filter (promotionCheck ps.visibleAlerts)).map
            (fun alert => (now + dt, alert.id)) else []) := by
  simp only [observeAlerts]
  split
  · cases ad <;> simp
  · next h =>
    have hnil : alerts.filter (promotionCheck ps.visibleAlerts) = [] :=
      List.length_eq_zero.mp (by omega)
    simp [hnil]

theorem observe_markReadCalls (alerts : List Alert) (now : Int) (ad : Bool) (dt : Int)
    (ps : PresenterState) :
    (observeAlerts alerts now ad dt ps).markReadCalls = ps.markReadCalls := by
  simp only [observeAlerts]
  split <;> rfl

theorem observe_visible_mem {alerts : List Alert} {now : Int} {ad : Bool} {dt : Int}
    {ps : PresenterState} {a : Alert}
    (ha : a ∈ (observeAlerts alerts now ad dt ps).visibleAlerts) :
    a ∈ ps.visibleAlerts ∨ (a ∈ alerts ∧ promotionCheck ps.visibleAlerts a = true) := by
  rw [observe_visibleAlerts] at ha
  rcases List.mem_append.mp ha with h | h
  · exact Or.inl h
  · exact Or.inr (List.mem_filter.mp h)

theorem runPresenter_visible_promoted (events : List PEvent) :
    ∀ a ∈ (runPresenter events).visibleAlerts,
      a.severity = some "critical" ∨ a.severity = some "high" ∨
        a.type = some "phishing_detected" := by
  suffices key : ∀ (l : List PEvent) (ps : PresenterState),
      (∀ a ∈ ps.visibleAlerts,
        a.severity = some "critical" ∨ a.severity = some "high" ∨
          a.type = some "phishing_detected") →
      ∀ a ∈ (l.foldl pStep ps).visibleAlerts,
        a.severity = some "critical" ∨ a.severity = some "high" ∨
          a.type = some "phishing_detected" by
    exact key events initialPresenter (by simp [initialPresenter])
  intro l
  induction l with
  | nil => intro ps h; exact h
  | cons e l ih =>
    intro ps h
    apply ih
    cases e with
    | observe alerts now ad dt =>
      intro a ha
      rcases observe_visible_mem ha with h1 | ⟨_, h2⟩
      · exact h a h1
      · exact ((promotionCheck_iff _ _).mp h2).2.2
    | dismiss i =>
      intro a ha
      simp only [pStep, dismissNotification] at ha
      exact h a (List.mem_filter.mp ha).1

/-- C7: an observed record that is unread and whose id is not yet visible
is promoted iff its severity is critical or high or its kind is
phishing-detected; observing never adds a second visible entry for an id
that is already visible; an info-severity system notification is never in
the visible set of any reachable presenter state; and yet such a record
is stored unread — and counted — by a non-duplicate add. -/
theorem promotion_rule :
    (∀ (alerts : List Alert) (now : Int) (ad : Bool) (dt : Int)
       (ps : PresenterState) (a : Alert),
      a ∈ alerts → a.read = false → (∀ v ∈ ps.visibleAlerts, v.id ≠ a.id) →
      (a ∈ (observeAlerts alerts now ad dt ps).visibleAlerts ↔
        (a.severity = some "critical" ∨ a.severity = some "high" ∨
          a.type = some "phishing_detected"))) ∧
    (∀ (alerts : List Alert) (now : Int) (ad : Bool) (dt : Int)
       (ps : PresenterState) (i : Nat), (∃ v ∈ ps.visibleAlerts, v.id = i) →
      ((observeAlerts alerts now ad dt ps).visibleAlerts.countP fun x => x.id == i) =
        ps.visibleAlerts.countP fun x => x.id == i) ∧
    (∀ (events : List PEvent) (a : Alert), a ∈ (runPresenter events).visibleAlerts →
      ¬(a.type = some "system_notification" ∧ a.severity = some "info")) ∧
    (∀ (p : Payload) (now : Int) (fid : Nat) (s : AlertState),
      p.type = some "system_notification" → p.severity = some "info" → p.read = none →
      (¬ ∃ a ∈ s.alerts, a.content = p.content ∧ a.type = p.type ∧
          now - 60000 < a.timestamp) →
      ∃ r ∈ (addAlert p now fid s).alerts,
        r.type = some "system_notification" ∧ r.severity = some "info" ∧
        r.read = false ∧ (addAlert p now fid s).unreadCount = s.unreadCount + 1) := by
  refine ⟨?_, ?_, ?_, ?_⟩
  · intro alerts now ad dt ps a ha hread hvis
    have hanv : a ∉ ps.visibleAlerts := fun hmem => hvis a hmem rfl
    rw [observe_visibleAlerts, List.mem_append]
    constructor
    · rintro (h | h)
      · exact absurd h hanv
      · exact ((promotionCheck_iff _ _).mp (List.mem_filter.mp h).2).2.2
    · intro hcond
      exact Or.inr (List.mem_filter.mpr
        ⟨ha, (promotionCheck_iff _ _).mpr ⟨hread, hvis, hcond⟩⟩)
  · intro alerts now ad dt ps i hex
    rw [observe_visibleAlerts, List.countP_append]
    have hzero : ((alerts.filter (promotionCheck ps.visibleAlerts)).countP
        fun x => x.id == i) = 0 := by
      rw [List.countP_eq_zero]
      intro x hx
      obtain ⟨v, hv, hvi⟩ := hex
      have hids := ((promotionCheck_iff _ _).mp (List.mem_filter.mp hx).2).2.1
      simp only [beq_iff_eq]
      intro hxi
      exact hids v hv (hvi.trans hxi.symm)
    omega
  · intro events a ha
    rintro ⟨hty, hsev⟩
    rcases runPresenter_visible_promoted events a ha with h | h | h
    · rw [hsev] at h
      exact absurd h (by decide)
    · rw [hsev] at h
      exact absurd h (by decide)
    · rw [hty] at h
      exact absurd h (by decide)
  · intro p now fid s hty hsev hread hnd
    have hfind : s.alerts.find? (duplicateCheck (newAlert p now fid) now) = none := by
      rw [List.find?_eq_none]
      intro a ha hpred
      rcases (duplicateCheck_iff _ _ _).mp hpred with ⟨hc, ht, hts⟩
      exact hnd ⟨a, ha, hc, ht, hts⟩
    rw [addAlert_of_find_none hfind]
    have htake : (newAlert p now fid :: s.alerts).take 100 =
        newAlert p now fid :: s.alerts.take 99 := by
      rw [show (100 : Nat) = 99 + 1 from rfl, List.take_succ_cons]
    refine ⟨newAlert p now fid, ?_, ?_, ?_, ?_, rfl⟩
    · rw [htake]
      exact List.mem_cons_self _ _
    · exact hty
    · exact hsev
    · simp [newAlert, hread]

/-- Witness for C7 at concrete inputs: the iff of the promotion rule at
`infoAlert` (whose right-hand side is false, so it is not promoted), and
the storage of the same candidate by an add into the empty store. -/
theorem promotion_rule_witness :
    (infoAlert ∈ (observeAlerts [infoAlert] 0 true 5000 initialPresenter).visibleAlerts ↔
      (infoAlert.severity = some "critical" ∨ infoAlert.severity = some "high" ∨
        infoAlert.type = some "phishing_detected")) ∧
    (∃ r ∈ (addAlert dupPayload 0 7 (initialState none)).alerts,
      r.type = some "system_notification" ∧ r.severity = some "info" ∧
      r.read = false ∧
      (addAlert dupPayload 0 7 (initialState none)).unreadCount =
        (initialState none).unreadCount + 1) :=
  ⟨promotion_rule.1 [infoAlert] 0 true 5000 initialPresenter infoAlert
      (by decide) rfl (by decide),
   promotion_rule.2.2.2 dupPayload 0 7 (initialState none) rfl rfl rfl (by decide)⟩

/-- C8: observing an unread critical phishing record whose id is not
visible and has never been marked read promotes it immediately and
schedules its auto-dismiss timeout exactly 5000 ms after the observation;
that timeout firing (nothing having dismissed the id earlier) removes the
id from the visible set and issues exactly one `markAsRead` call for
it. -/
theorem critical_phishing_auto_dismiss
    (a : Alert) (alerts : List Alert) (t : Int) (ps : PresenterState)
    (ha : a ∈ alerts) (hread : a.read = false)
    (htype : a.type = some "phishing_detected")
    (_hsev : a.severity = some "critical")
    (hvis : ∀ v ∈ ps.visibleAlerts, v.id ≠ a.id)
    (hcall : a.id ∉ ps.markReadCalls) :
    a ∈ (observeAlerts alerts t true 5000 ps).visibleAlerts ∧
    (t + 5000, a.id) ∈ (observeAlerts alerts t true 5000 ps).pendingTimers ∧
    (∀ v ∈ (dismissNotification a.id (observeAlerts alerts t true 5000 ps)).visibleAlerts,
      v.id ≠ a.id) ∧
    (dismissNotification a.id
        (observeAlerts alerts t true 5000 ps)).markReadCalls.count a.id = 1 := by
  have hpred : promotionCheck ps.visibleAlerts a = true :=
    (promotionCheck_iff _ _).mpr ⟨hread, hvis, Or.inr (Or.inr htype)⟩
  have hmemf : a ∈ alerts.filter (promotionCheck ps.visibleAlerts) :=
    List.mem_filter.mpr ⟨ha, hpred⟩
  refine ⟨?_, ?_, ?_, ?_⟩
  · rw [observe_visibleAlerts]
    exact List.mem_append.mpr (Or.inr hmemf)
  · rw [observe_pendingTimers]
    refine List.mem_append.mpr (Or.inr ?_)
    simp only [if_true]
    exact List.mem_map.mpr ⟨a, hmemf, rfl⟩
  · intro v hv
    simp only [dismissNotification] at hv
    have := (List.mem_filter.mp hv).2
    simpa using this
  · have hcalls : (dismissNotification a.id
        (observeAlerts alerts t true 5000 ps)).markReadCalls =
          ps.markReadCalls ++ [a.id] := by
      simp only [dismissNotification, observe_markReadCalls]
    rw [hcalls, List.count_append, List.count_eq_zero.mpr hcall]
    simp

/-- Witness for C8 at a concrete input: a critical phishing record shown
to a fresh presenter. -/
theorem critical_phishing_auto_dismiss_witness :
    phishAlert ∈ (observeAlerts [phishAlert] 0 true 5000 initialPresenter).visibleAlerts ∧
    ((0 : Int) + 5000, phishAlert.id) ∈
      (observeAlerts [phishAlert] 0 true 5000 initialPresenter).pendingTimers ∧
    (∀ v ∈ (dismissNotification phishAlert.id
        (observeAlerts [phishAlert] 0 true 5000 initialPresenter)).visibleAlerts,
      v.id ≠ phishAlert.id) ∧
    (dismissNotification phishAlert.id
        (observeAlerts [phishAlert] 0 true 5000
          initialPresenter)).markReadCalls.count phishAlert.id = 1 :=
  critical_phishing_auto_dismiss phishAlert [phishAlert] 0 initialPresenter
    (by decide) rfl rfl rfl (by decide) (by decide)

/-- C10: on the non-duplicate branch the stored head record takes the
candidate's own id, timestamp, and read values whenever the candidate
carries them (the payload is spread after the store-assigned defaults),
and receives the fresh id, the current time, and unread status only when
the candidate lacks them; hence a caller can insert a pre-read record
(the stored unread recount is unchanged) or reuse an existing id (the
count of stored records carrying that id grows). -/
theorem payload_overrides_defaults
    (p : Payload) (now : Int) (fid : Nat) (s : AlertState)
    (hnd : ¬ ∃ a ∈ s.alerts, a.content = p.content ∧ a.type = p.type ∧
        now - 60000 < a.timestamp) :
    (∀ j, p.id = some j →
      ∃ r, (addAlert p now fid s).alerts.head? = some r ∧ r.id = j) ∧
    (∀ t, p.timestamp = some t →
      ∃ r, (addAlert p now fid s).alerts.head? = some r ∧ r.timestamp = t) ∧
    (∀ b, p.read = some b →
      ∃ r, (addAlert p now fid s).alerts.head? = some r ∧ r.read = b) ∧
    (p.id = none → p.timestamp = none → p.read = none →
      ∃ r, (addAlert p now fid s).alerts.head? = some r ∧
        r.id = fid ∧ r.timestamp = now ∧ r.read = false) ∧
    (p.read = some true → s.alerts.length ≤ 99 →
      countUnread (addAlert p now fid s).alerts = countUnread s.alerts) ∧
    (∀ j, p.id = some j → s.alerts.length ≤ 99 →
      ((addAlert p now fid s).alerts.countP fun x => x.id == j) =
        (s.alerts.countP fun x => x.id == j) + 1) := by
  have hfind : s.alerts.find? (duplicateCheck (newAlert p now fid) now) = none := by
    rw [List.find?_eq_none]
    intro a ha hpred
    rcases (duplicateCheck_iff _ _ _).mp hpred with ⟨hc, ht, hts⟩
    exact hnd ⟨a, ha, hc, ht, hts⟩
  have hadd := addAlert_of_find_none hfind
  have htake : (newAlert p now fid :: s.alerts).take 100 =
      newAlert p now fid :: s.alerts.take 99 := by
    rw [show (100 : Nat) = 99 + 1 from rfl, List.take_succ_cons]
  have hhead : (addAlert p now fid s).alerts.head? = some (newAlert p now fid) := by
    rw [hadd]
    simp [htake]
  have htakeall : ∀ h99 : s.alerts.length ≤ 99,
      (addAlert p now fid s).alerts = newAlert p now fid :: s.alerts := by
    intro h99
    rw [hadd]
    simp only
    rw [List.take_of_length_le]
    simp only [List.length_cons]
    omega
  refine ⟨?_, ?_, ?_, ?_, ?_, ?_⟩
  · intro j hj
    exact ⟨newAlert p now fid, hhead, by simp [newAlert, hj]⟩
  · intro t ht
    exact ⟨newAlert p now fid, hhead, by simp [newAlert, ht]⟩
  · intro b hb
    exact ⟨newAlert p now fid, hhead, by simp [newAlert, hb]⟩
  · intro hid hts hrd
    exact ⟨newAlert p now fid, hhead, by simp [newAlert, hid],
      by simp [newAlert, hts], by simp [newAlert, hrd]⟩
  · intro hb h99
    rw [htakeall h99]
    unfold countUnread
    rw [List.countP_cons]
    simp [newAlert, hb]
  · intro j hj h99
    rw [htakeall h99, List.countP_cons]
    simp [newAlert, hj]

/-- Witness for C10 at a concrete input: a candidate that carries its own
id, timestamp and `read: true` added to a one-record store keeps those
values on the stored head record and leaves the unread recount unchanged. -/
theorem payload_overrides_defaults_witness :
    (∃ r, (addAlert overridePayload 1000 33 dupState).alerts.head? = some r ∧
      r.timestamp = 500) ∧
    (∃ r, (addAlert overridePayload 1000 33 dupState).alerts.head? = some r ∧
      r.read = true) ∧
    countUnread (addAlert overridePayload 1000 33 dupState).alerts =
      countUnread dupState.alerts :=
  ⟨(payload_overrides_defaults overridePayload 1000 33 dupState (by decide)).2.1
      500 rfl,
   (payload_overrides_defaults overridePayload 1000 33 dupState (by decide)).2.2.1
      true rfl,
   (payload_overrides_defaults overridePayload 1000 33 dupState (by decide)).2.2.2.2.1
      rfl (by decide)⟩
